import Mathlib

/-
Verification of the otp-server core primitives: the fixed-window rate
limiter (internal/interfaces/http/middleware/rate_limiter.go), the OTP
engine (internal/infrastructure/redis/otp_service.go), the circuit
breaker (internal/infrastructure/circuitbreaker/circuitbreaker.go), the
retry helper (internal/infrastructure/retry/retry.go) and the connection
pool (internal/infrastructure/pool/connection_pool.go).

The Redis-backed state is modelled as a single timed key slot: each of
the checked operations touches exactly one key, so a store is an
optional entry carrying the stored string and its absolute expiry time.
Time is a natural number; a Get on a missing, expired or unreachable key
yields no value, matching go-redis which returns the empty string
together with a non-nil error in all three cases.
-/

namespace KV

/-- One Redis key slot: the stored string value and the absolute time at
which it expires (set time + TTL). -/
structure Entry where
  value : String
  expiry : Nat
deriving DecidableEq, Repr

/-- Redis GET at time now: the value if the entry exists and has not
expired, otherwise nothing (go-redis reports a missing or expired key as
an error with an empty string result). -/
def get (s : Option Entry) (now : Nat) : Option String :=
  match s with
  | some e => if now < e.expiry then some e.value else none
  | none => none

/-- Redis SET with expiration at time now: stores value with absolute
expiry now + ttl, overwriting whatever was there. -/
def set (value : String) (ttl now : Nat) : Option Entry :=
  some { value := value, expiry := now + ttl }

end KV

namespace RateLimiter

/-- strconv.Atoi with its error discarded, as on rate_limiter.go line
190: a string of digits parses to its value, anything else (including
the empty string) leaves count at 0. The limiter only ever stores
strconv.Itoa of a non-negative count, so signed inputs never occur. -/
def atoi (s : String) : Nat :=
  if s.data ≠ [] ∧ s.data.all (fun c => c.isDigit) then
    s.data.foldl (fun acc c => acc * 10 + (c.toNat - 48)) 0
  else 0

/-- Error returned by checkRateLimit when the counter has reached the
limit (the too-many-requests message of rate_limiter.go line 204). -/
inductive RLErr where
  | tooManyRequests
deriving DecidableEq, Repr

/-- checkRateLimit (rate_limiter.go lines 182-214). getResult is the
outcome of the redisClient.Get call: some v when the key is present,
none when Get fails (key absent, key expired, or store unreachable; in
every such case the Go code sees current = ""). setFails says whether
the redisClient.Set call fails; its error is only logged, never
returned. The result is the returned error (none = nil = request
allowed) paired with the value and TTL actually written to the store by
Set (none when Set is not reached or fails). -/
def checkRateLimit (getResult : Option String) (setFails : Bool) (limit window : Nat) :
    Option RLErr × Option (String × Nat) :=
  let current := getResult.getD ""
  let count := atoi current
  if limit ≤ count then (some .tooManyRequests, none)
  else (none, if setFails then none else some (toString (count + 1), window))

/-- One rate-limit check against the timed single-key store, with the
store reachable (Get reflects the entry, Set succeeds): returns the
error result and the new store contents. -/
def windowStep (s : Option KV.Entry) (now limit window : Nat) :
    Option RLErr × Option KV.Entry :=
  match checkRateLimit (KV.get s now) false limit window with
  | (e, none) => (e, s)
  | (e, some (v, ttl)) => (e, KV.set v ttl now)

end RateLimiter

/-- C1, counterexample. Claim: a request arriving while the counter
already exists increments it without resetting the TTL. On the code,
with limit 3 and window 10: the first request at time 0 stores count 1
expiring at 10, but the second request at time 5 is allowed and stores
count 2 expiring at 15, not at 10 — the plain Redis SET on line 208
resets the TTL to the full window on every allowed request. -/
theorem checkRateLimit_resets_ttl_counterexample :
    RateLimiter.windowStep none 0 3 10 =
      (none, some { value := "1", expiry := 10 }) ∧
    (RateLimiter.windowStep (some { value := "1", expiry := 10 }) 5 3 10).1 = none ∧
    (RateLimiter.windowStep (some { value := "1", expiry := 10 }) 5 3 10).2 ≠
      some { value := "2", expiry := 10 } ∧
    (RateLimiter.windowStep (some { value := "1", expiry := 10 }) 5 3 10).2 =
      some { value := "2", expiry := 15 } := by
  refine ⟨?_, ?_, ?_, ?_⟩ <;> decide

/-- C1, amended. Every allowed request increments the stored counter and
(re)writes the key with TTL equal to the full window measured from that
request, whether or not the key was previously present: the window is
extended by each allowed request rather than fixed at the first one. -/
theorem checkRateLimit_allowed_sets_full_window
    (s : Option KV.Entry) (now limit window : Nat)
    (h : RateLimiter.atoi ((KV.get s now).getD "") < limit) :
    RateLimiter.windowStep s now limit window =
      (none, some { value := toString (RateLimiter.atoi ((KV.get s now).getD "") + 1),
                    expiry := now + window }) := by
  unfold RateLimiter.windowStep RateLimiter.checkRateLimit
  simp only [if_neg (not_le.mpr h)]
  rfl

/-- C1, witness for the amended theorem: with a present counter "1" not
expired at time 5, limit 3, window 10, the request is allowed and the
key is rewritten as count 2 expiring at 15. -/
theorem checkRateLimit_allowed_sets_full_window_witness :
    RateLimiter.atoi ((KV.get (some { value := "1", expiry := 10 }) 5).getD "") < 3 ∧
    RateLimiter.windowStep (some { value := "1", expiry := 10 }) 5 3 10 =
      (none, some ⟨toString
        (RateLimiter.atoi ((KV.get (some { value := "1", expiry := 10 }) 5).getD "") + 1),
        5 + 10⟩) :=
  ⟨by decide, checkRateLimit_allowed_sets_full_window
    (some { value := "1", expiry := 10 }) 5 3 10 (by decide)⟩

/-- C8. The limiter fails open on store failure: when the Get call fails
(store unreachable, so the code sees current = "") the request is
allowed for any positive limit, and a failing Set never turns an allowed
request into a denial — checkRateLimit returns nil in both cases. -/
theorem checkRateLimit_fails_open (setFails : Bool) (getResult : Option String)
    (limit window : Nat) (hlim : 1 ≤ limit)
    (hcount : RateLimiter.atoi (getResult.getD "") < limit) :
    (RateLimiter.checkRateLimit none setFails limit window).1 = none ∧
    (RateLimiter.checkRateLimit getResult true limit window).1 = none := by
  constructor
  · unfold RateLimiter.checkRateLimit
    have h0 : ¬ limit ≤ RateLimiter.atoi ((none : Option String).getD "") := by
      have : RateLimiter.atoi ((none : Option String).getD "") = 0 := by decide
      omega
    simp only [if_neg h0]
  · unfold RateLimiter.checkRateLimit
    simp only [if_neg (not_le.mpr hcount)]

/-- C8, witness: limit 3, a failing Get and a failing Set each still
yield a nil error (request allowed). -/
theorem checkRateLimit_fails_open_witness :
    1 ≤ 3 ∧ RateLimiter.atoi ((some "1" : Option String).getD "") < 3 ∧
    ((RateLimiter.checkRateLimit none true 3 60).1 = none ∧
     (RateLimiter.checkRateLimit (some "1") true 3 60).1 = none) :=
  ⟨by decide, by decide, checkRateLimit_fails_open true (some "1") 3 60 (by decide) (by decide)⟩

namespace OTPService

/-- Errors returned by ValidateOTP (otp_service.go lines 64-91): the
not-found-or-expired error, the invalid-code error, and a pass-through
error from a failing Del. -/
inductive OTPErr where
  | notFoundOrExpired
  | invalidOTPCode
  | delError
deriving DecidableEq, Repr

/-- OTP configuration (config.OTPConfig): code length, expiry TTL and
code charset. The Redis key prix is irrelevant in the single-key model
and omitted. -/
structure OTPConfig where
  length : Nat
  expiry : Nat
  codeCharset : String
deriving DecidableEq, Repr

/-- generateRandomCode (otp_service.go lines 97-114): an empty
configured charset falls back to "0123456789"; the code is built one
character at a time, character i being charset indexed by the random
draw rnd i. crypto/rand.Int guarantees the draw is below the charset
length; the modulus makes the model total without changing those
inputs. -/
def generateRandomCode (charset : String) (length : Nat) (rnd : Nat → Nat) : String :=
  let cs := if charset = "" then "0123456789" else charset
  (List.range length).foldl
    (fun code i => code.push (cs.data.getD (rnd i % cs.data.length) 'A')) ""

/-- GenerateOTP (otp_service.go lines 41-62): generates a random code
and stores it under the phone key with TTL = configured expiry,
overwriting any prior code. setFails is the outcome of the Set call; on
failure the error is returned and nothing is stored. Returns the code
handed back to the caller and the new store contents. -/
def generateOTP (s : Option KV.Entry) (now : Nat) (cfg : OTPConfig) (rnd : Nat → Nat)
    (setFails : Bool) : Option String × Option KV.Entry :=
  let code := generateRandomCode cfg.codeCharset cfg.length rnd
  if setFails then (none, s) else (some code, KV.set code cfg.expiry now)

/-- ValidateOTP (otp_service.go lines 64-91): a failed Get (key missing,
expired, or store down — go-redis then yields "") is the
not-found-or-expired error; a mismatch is the invalid-code error and
leaves the store untouched; a match deletes the key. delFails is the
outcome of the Del call; on failure its error is returned and the key
remains. Result: returned error (none = success) and new store
contents. -/
def validateOTP (s : Option KV.Entry) (now : Nat) (code : String) (delFails : Bool) :
    Option OTPErr × Option KV.Entry :=
  let storedCode := (KV.get s now).getD ""
  if storedCode = "" then (some .notFoundOrExpired, s)
  else if storedCode ≠ code then (some .invalidOTPCode, s)
  else if delFails then (some .delError, s)
  else (none, none)

/-- Length of a generated code equals the configured length: the fold
pushes exactly one character per index. -/
theorem generateRandomCode_length (charset : String) (n : Nat) (rnd : Nat → Nat) :
    (generateRandomCode charset n rnd).length = n := by
  unfold generateRandomCode
  suffices h : ∀ (l : List Nat) (acc : String) (f : Nat → Char),
      (l.foldl (fun code i => code.push (f i)) acc).length = acc.length + l.length by
    simpa using h (List.range n) "" _
  intro l
  induction l with
  | nil => intro acc f; simp
  | cons x xs ih =>
      intro acc f
      simp only [List.foldl_cons, ih, String.length_push, List.length_cons]
      omega

/-- A generated code of positive configured length is never the empty
string, so storing it never collides with the empty-string signal that
go-redis uses for a missing key. -/
theorem generateRandomCode_ne_empty (charset : String) (n : Nat) (rnd : Nat → Nat)
    (hn : 1 ≤ n) : generateRandomCode charset n rnd ≠ "" := by
  intro h
  have := generateRandomCode_length charset n rnd
  rw [h] at this
  simp [String.length] at this
  omega

end OTPService

/-- C4. Generate-then-validate succeeds exactly once: with a working
store, GenerateOTP stores the code it returns with TTL = expiry; a
ValidateOTP with that code before expiry succeeds and deletes the key;
after the deletion any further ValidateOTP with the same code fails
with the not-found-or-expired error. Requires a positive configured
code length (default 6), so the stored code is never the empty string
that go-redis uses to signal a missing key. -/
theorem otp_generate_validate_consumes
    (s : Option KV.Entry) (now t1 t2 : Nat) (cfg : OTPService.OTPConfig)
    (rnd : Nat → Nat) (hlen : 1 ≤ cfg.length) (ht1 : t1 < now + cfg.expiry) :
    ∃ code, OTPService.generateOTP s now cfg rnd false =
        (some code, some { value := code, expiry := now + cfg.expiry }) ∧
      OTPService.validateOTP (some { value := code, expiry := now + cfg.expiry })
        t1 code false = (none, none) ∧
      (OTPService.validateOTP none t2 code false).1 = some .notFoundOrExpired := by
  refine ⟨OTPService.generateRandomCode cfg.codeCharset cfg.length rnd, ?_, ?_, ?_⟩
  · rfl
  · have hcode := OTPService.generateRandomCode_ne_empty cfg.codeCharset cfg.length rnd hlen
    unfold OTPService.validateOTP
    simp [KV.get, if_pos ht1, hcode]
  · rfl

/-- C4, witness: empty store, generation at time 0 with expiry 120 and
length 6, validation of the returned code at time 1 succeeds and
deletes the key, revalidation at time 5 fails as not found. -/
theorem otp_generate_validate_consumes_witness :
    1 ≤ (6 : Nat) ∧ 1 < 0 + 120 ∧
    (∃ code, OTPService.generateOTP none 0 ⟨6, 120, ""⟩ (fun _ => 0) false =
        (some code, some { value := code, expiry := 0 + 120 }) ∧
      OTPService.validateOTP (some { value := code, expiry := 0 + 120 })
        1 code false = (none, none) ∧
      (OTPService.validateOTP none 5 code false).1 = some .notFoundOrExpired) :=
  ⟨by decide, by decide,
    otp_generate_validate_consumes none 0 1 5 ⟨6, 120, ""⟩ (fun _ => 0)
      (by decide) (by decide)⟩

/-- C5. A wrong guess does not consume the pending code: with a
non-empty pending code c not yet expired, ValidateOTP with any
different code fails with the invalid-code error and returns the store
unchanged (same value, same expiry), and a later ValidateOTP with the
correct code before expiry still succeeds and deletes the key. -/
theorem otp_wrong_code_leaves_pending
    (c wrong : String) (e t1 t2 : Nat) (delFails : Bool)
    (hc : c ≠ "") (hw : wrong ≠ c) (ht1 : t1 < e) (ht2 : t2 < e) :
    OTPService.validateOTP (some { value := c, expiry := e }) t1 wrong delFails =
      (some .invalidOTPCode, some { value := c, expiry := e }) ∧
    OTPService.validateOTP (some { value := c, expiry := e }) t2 c false =
      (none, none) := by
  constructor
  · unfold OTPService.validateOTP
    simp only [KV.get, if_pos ht1, Option.getD_some]
    rw [if_neg hc, if_pos (fun h => hw (Eq.symm h))]
  · unfold OTPService.validateOTP
    simp [KV.get, if_pos ht2, hc]

/-- C5, witness: pending code "123456" expiring at 120; the guess
"000000" at time 3 fails as invalid and leaves the entry intact; the
correct code at time 4 succeeds and deletes the key. -/
theorem otp_wrong_code_leaves_pending_witness :
    ("123456" : String) ≠ "" ∧ ("000000" : String) ≠ "123456" ∧
    (3 : Nat) < 120 ∧ (4 : Nat) < 120 ∧
    (OTPService.validateOTP (some { value := "123456", expiry := 120 }) 3 "000000" true =
      (some .invalidOTPCode, some { value := "123456", expiry := 120 }) ∧
    OTPService.validateOTP (some { value := "123456", expiry := 120 }) 4 "123456" false =
      (none, none)) :=
  ⟨by decide, by decide, by decide, by decide,
    otp_wrong_code_leaves_pending "123456" "000000" 120 3 4 true
      (by decide) (by decide) (by decide) (by decide)⟩

namespace Breaker

/-- Circuit breaker states (circuitbreaker.go lines 16-20): StateClosed,
StateOpen, StateHalfOpen. -/
inductive BState where
  | closed
  | opened
  | halfOpen
deriving DecidableEq, Repr

/-- Circuit breaker configuration fields used by the state logic
(circuitbreaker.go lines 36-43); timeout is in the same abstract time
unit as the timestamps. -/
structure Config where
  failureThreshold : Nat
  successThreshold : Nat
  timeout : Nat
deriving DecidableEq, Repr

/-- Mutable circuit breaker state (circuitbreaker.go lines 58-75):
current state, the failure and success counters, and the two
timestamps. Time is a monotone natural clock. -/
structure CB where
  state : BState
  failures : Nat
  successes : Nat
  lastFailure : Nat
  lastStateChange : Nat
deriving DecidableEq, Repr

/-- The zero-valued breaker built by NewCircuitBreaker (state
StateClosed, counters and timestamps zero). -/
def initialCB : CB :=
  { state := .closed, failures := 0, successes := 0, lastFailure := 0, lastStateChange := 0 }

/-- transitionTo (circuitbreaker.go lines 191-214): installs the new
state and timestamp; the counters are zeroed only when the new state is
StateClosed or StateHalfOpen — a transition to StateOpen leaves both
counters as they were. -/
def transitionTo (cb : CB) (newState : BState) (timestamp : Nat) : CB :=
  let cb1 := { cb with state := newState, lastStateChange := timestamp }
  if newState = .closed then { cb1 with failures := 0, successes := 0 }
  else if newState = .halfOpen then { cb1 with failures := 0, successes := 0 }
  else cb1

/-- updateState (circuitbreaker.go lines 169-188): the lazy transition
table, evaluated at time now under the breaker lock. -/
def updateState (cfg : Config) (cb : CB) (now : Nat) : CB :=
  match cb.state with
  | .closed =>
      if cfg.failureThreshold ≤ cb.failures then transitionTo cb .opened now else cb
  | .opened =>
      if cfg.timeout ≤ now - cb.lastStateChange then transitionTo cb .halfOpen now else cb
  | .halfOpen =>
      if cfg.successThreshold ≤ cb.successes then transitionTo cb .closed now
      else if cfg.failureThreshold ≤ cb.failures then transitionTo cb .opened now
      else cb

/-- recordResult (circuitbreaker.go lines 146-166): increments the
failure counter (stamping lastFailure) or the success counter according
to the operation outcome, then re-evaluates the transition table. -/
def recordResult (cfg : Config) (cb : CB) (opFails : Bool) (now : Nat) : CB :=
  let cb1 := if opFails then { cb with failures := cb.failures + 1, lastFailure := now }
             else { cb with successes := cb.successes + 1 }
  updateState cfg cb1 now

/-- canExecute (circuitbreaker.go lines 128-143): closed and half-open
always admit; open admits once the timeout has elapsed since the last
state change. -/
def canExecute (cfg : Config) (cb : CB) (now : Nat) : Bool :=
  match cb.state with
  | .closed => true
  | .opened => cfg.timeout ≤ now - cb.lastStateChange
  | .halfOpen => true

/-- Outcome of one Execute call: rejected with ErrCircuitOpen without
running the operation, or ran the operation (whose own failure flag is
carried through, since Execute returns the operation error). -/
inductive ExecOut where
  | rejectedOpen
  | ran (opFails : Bool)
deriving DecidableEq, Repr

/-- Execute (circuitbreaker.go lines 94-113), single caller: if
canExecute refuses, ErrCircuitOpen without running fn; otherwise the
half-open semaphore is acquired exactly when the state read at that
point is StateHalfOpen (with one caller and MaxConcurrent ≥ 1 the
semaphore always has a free slot, so it never rejects here), fn runs,
and recordResult folds its outcome into the state. Returns the call
outcome, whether the semaphore was used, and the new breaker state. -/
def Execute (cfg : Config) (cb : CB) (now : Nat) (opFails : Bool) :
    ExecOut × Bool × CB :=
  if ¬ canExecute cfg cb now then (.rejectedOpen, false, cb)
  else (.ran opFails, cb.state = .halfOpen, recordResult cfg cb opFails now)

/-- Sequence of Execute calls, each given by its time and the outcome
the wrapped operation would have; returns the final breaker state and
how many of the calls actually ran their operation. -/
def executeRun (cfg : Config) (cb : CB) : List (Nat × Bool) → CB × Nat
  | [] => (cb, 0)
  | e :: rest =>
      let step := Execute cfg cb e.1 e.2
      let r := executeRun cfg step.2.2 rest
      (r.1, (if step.1 = .rejectedOpen then 0 else 1) + r.2)

end Breaker

/-- C2, counterexample. Claim: every state transition resets both
counters. On the code, the Closed-to-Open transition taken when the
fifth failure is recorded (failure threshold 5) leaves failures = 5 and
successes = 2: transitionTo only zeroes the counters when the new state
is StateClosed or StateHalfOpen. -/
theorem transitionTo_open_no_reset_counterexample :
    Breaker.recordResult ⟨5, 3, 30⟩
        ⟨Breaker.BState.closed, 4, 2, 0, 0⟩ true 7 =
      ⟨Breaker.BState.opened, 5, 2, 7, 7⟩ ∧
    (Breaker.recordResult ⟨5, 3, 30⟩
        ⟨Breaker.BState.closed, 4, 2, 0, 0⟩ true 7).failures ≠ 0 := by
  refine ⟨?_, ?_⟩ <;> decide

/-- C2, amended. transitionTo resets both counters exactly on
transitions into StateClosed and into StateHalfOpen (covering
HalfOpen-to-Closed, Open-to-HalfOpen and ForceClose); transitions into
StateOpen (Closed-to-Open, HalfOpen-to-Open and ForceOpen) leave both
counters unchanged. -/
theorem transitionTo_counter_reset_characterization (cb : Breaker.CB) (ts : Nat) :
    (Breaker.transitionTo cb .closed ts).failures = 0 ∧
    (Breaker.transitionTo cb .closed ts).successes = 0 ∧
    (Breaker.transitionTo cb .halfOpen ts).failures = 0 ∧
    (Breaker.transitionTo cb .halfOpen ts).successes = 0 ∧
    (Breaker.transitionTo cb .opened ts).failures = cb.failures ∧
    (Breaker.transitionTo cb .opened ts).successes = cb.successes := by
  refine ⟨?_, ?_, ?_, ?_, ?_, ?_⟩ <;> rfl

/-- C10. The first call after the open-state timeout is a probe that is
admitted while the state is still StateOpen: the semaphore branch is
skipped (the state read is not StateHalfOpen), the operation runs, and
whatever its outcome, recordResult's increment is immediately wiped by
the lazy Open-to-HalfOpen transition, which zeroes both counters — so
the probe's outcome counts toward neither threshold. -/
theorem open_probe_not_counted (cfg : Breaker.Config) (cb : Breaker.CB) (now : Nat)
    (opFails : Bool) (hst : cb.state = .opened)
    (ht : cb.lastStateChange + cfg.timeout ≤ now) :
    Breaker.Execute cfg cb now opFails =
      (.ran opFails, false,
        { state := .halfOpen, failures := 0, successes := 0,
          lastFailure := if opFails then now else cb.lastFailure,
          lastStateChange := now }) := by
  have ht2 : cfg.timeout ≤ now - cb.lastStateChange := by omega
  cases opFails with
  | true =>
      simp [Breaker.Execute, Breaker.canExecute, Breaker.recordResult,
        Breaker.updateState, Breaker.transitionTo, hst, ht2]
  | false =>
      simp [Breaker.Execute, Breaker.canExecute, Breaker.recordResult,
        Breaker.updateState, Breaker.transitionTo, hst, ht2]

/-- C10, witness: breaker open since time 0 with timeout 30, counters
4 and 1; a failing probe at time 30 runs without the semaphore and
leaves the breaker half-open with both counters zero. -/
theorem open_probe_not_counted_witness :
    (Breaker.CB.mk .opened 4 1 0 0).state = .opened ∧
    (Breaker.CB.mk .opened 4 1 0 0).lastStateChange + (30 : Nat) ≤ 30 ∧
    Breaker.Execute ⟨5, 3, 30⟩ (Breaker.CB.mk .opened 4 1 0 0) 30 true =
      (.ran true, false,
        { state := .halfOpen, failures := 0, successes := 0,
          lastFailure := if true then 30 else (Breaker.CB.mk .opened 4 1 0 0).lastFailure,
          lastStateChange := 30 }) :=
  ⟨by decide, by decide,
    open_probe_not_counted ⟨5, 3, 30⟩ (Breaker.CB.mk .opened 4 1 0 0) 30 true
      (by decide) (by decide)⟩

/-- Failure phase helper: from a closed breaker whose failure counter
is j short of the threshold, j consecutive failing calls at time t all
execute and leave the breaker open with failures = failureThreshold
(no reset on the transition into StateOpen), successes untouched, and
both timestamps at t. -/
theorem breaker_fail_run (cfg : Breaker.Config) (t : Nat) :
    ∀ (j : Nat) (cb : Breaker.CB), 1 ≤ j → cb.state = .closed →
      cb.failures + j = cfg.failureThreshold →
      Breaker.executeRun cfg cb (List.replicate j (t, true)) =
        ({ state := .opened, failures := cfg.failureThreshold, successes := cb.successes,
           lastFailure := t, lastStateChange := t }, j) := by
  intro j
  induction j with
  | zero => intro cb h1 _ _; omega
  | succ n ih =>
      intro cb _ hst hsum
      by_cases hn : n = 0
      · subst hn
        have hcond : cfg.failureThreshold ≤ cb.failures + 1 := by omega
        have hval : cb.failures + 1 = cfg.failureThreshold := by omega
        simp [List.replicate, Breaker.executeRun, Breaker.Execute, Breaker.canExecute,
          Breaker.recordResult, Breaker.updateState, Breaker.transitionTo, hst, hcond, hval]
      · have hcond : ¬ cfg.failureThreshold ≤ cb.failures + 1 := by omega
        have hstep : Breaker.executeRun cfg cb (List.replicate (n + 1) (t, true)) =
            (let r := Breaker.executeRun cfg
              { cb with failures := cb.failures + 1, lastFailure := t }
              (List.replicate n (t, true))
             (r.1, 1 + r.2)) := by
          simp [List.replicate, Breaker.executeRun, Breaker.Execute, Breaker.canExecute,
            Breaker.recordResult, Breaker.updateState, hst, hcond]
        rw [hstep]
        rw [ih { cb with failures := cb.failures + 1, lastFailure := t }
          (by omega) hst (by simp; omega)]
        simp
        omega

/-- Success phase helper: from a half-open breaker whose failure counter
is below the failure threshold and whose success counter is j short of
the success threshold, j consecutive successful calls at time u all
execute and close the breaker with both counters reset to zero. -/
theorem breaker_succ_run (cfg : Breaker.Config) (u : Nat) :
    ∀ (j : Nat) (cb : Breaker.CB), 1 ≤ j → cb.state = .halfOpen →
      cb.failures < cfg.failureThreshold →
      cb.successes + j = cfg.successThreshold →
      Breaker.executeRun cfg cb (List.replicate j (u, false)) =
        ({ state := .closed, failures := 0, successes := 0,
           lastFailure := cb.lastFailure, lastStateChange := u }, j) := by
  intro j
  induction j with
  | zero => intro cb h1 _ _ _; omega
  | succ n ih =>
      intro cb _ hst hflt hsum
      by_cases hn : n = 0
      · subst hn
        have hcond : cfg.successThreshold ≤ cb.successes + 1 := by omega
        simp [List.replicate, Breaker.executeRun, Breaker.Execute, Breaker.canExecute,
          Breaker.recordResult, Breaker.updateState, Breaker.transitionTo, hst, hcond]
      · have hcond : ¬ cfg.successThreshold ≤ cb.successes + 1 := by omega
        have hfcond : ¬ cfg.failureThreshold ≤ cb.failures := by omega
        have hstep : Breaker.executeRun cfg cb (List.replicate (n + 1) (u, false)) =
            (let r := Breaker.executeRun cfg
              { cb with successes := cb.successes + 1 }
              (List.replicate n (u, false))
             (r.1, 1 + r.2)) := by
          simp [List.replicate, Breaker.executeRun, Breaker.Execute, Breaker.canExecute,
            Breaker.recordResult, Breaker.updateState, hst, hcond, hfcond]
        rw [hstep]
        rw [ih { cb with successes := cb.successes + 1 }
          (by omega) hst (by simpa) (by simp; omega)]
        simp
        omega

/-- C6. Breaker lifecycle, single caller, monotone clock: (a) feeding
failureThreshold consecutive failures through Execute from the initial
closed breaker runs every operation and trips the breaker to StateOpen;
(b) while open and strictly inside the timeout window a call is
rejected with ErrCircuitOpen, the operation does not run and the state
is unchanged; (c) the first call once the timeout has elapsed is
admitted and moves the breaker to StateHalfOpen with both counters
zeroed; (d) successThreshold consecutive successes in half-open all run
and close the breaker with both counters reset to zero. -/
theorem breaker_lifecycle_scenario (cfg : Breaker.Config) (t tr t2 u : Nat) (f fr : Bool)
    (hf : 1 ≤ cfg.failureThreshold) (hs : 1 ≤ cfg.successThreshold)
    (hmt : t ≤ tr) (htr : tr < t + cfg.timeout) (hto : t + cfg.timeout ≤ t2) :
    Breaker.executeRun cfg Breaker.initialCB (List.replicate cfg.failureThreshold (t, true)) =
      ({ state := .opened, failures := cfg.failureThreshold, successes := 0,
         lastFailure := t, lastStateChange := t }, cfg.failureThreshold) ∧
    Breaker.Execute cfg ⟨.opened, cfg.failureThreshold, 0, t, t⟩ tr fr =
      (.rejectedOpen, false, ⟨.opened, cfg.failureThreshold, 0, t, t⟩) ∧
    Breaker.Execute cfg ⟨.opened, cfg.failureThreshold, 0, t, t⟩ t2 f =
      (.ran f, false, ⟨.halfOpen, 0, 0, if f then t2 else t, t2⟩) ∧
    Breaker.executeRun cfg ⟨.halfOpen, 0, 0, if f then t2 else t, t2⟩
        (List.replicate cfg.successThreshold (u, false)) =
      ({ state := .closed, failures := 0, successes := 0,
         lastFailure := if f then t2 else t, lastStateChange := u }, cfg.successThreshold) := by
  refine ⟨?_, ?_, ?_, ?_⟩
  · exact breaker_fail_run cfg t cfg.failureThreshold Breaker.initialCB hf rfl (by simp [Breaker.initialCB])
  · have hcond : ¬ cfg.timeout ≤ tr - t := by omega
    simp [Breaker.Execute, Breaker.canExecute, hcond]
  · have ht2 : cfg.timeout ≤ t2 - t := by omega
    cases f with
    | true =>
        simp [Breaker.Execute, Breaker.canExecute, Breaker.recordResult,
          Breaker.updateState, Breaker.transitionTo, ht2]
    | false =>
        simp [Breaker.Execute, Breaker.canExecute, Breaker.recordResult,
          Breaker.updateState, Breaker.transitionTo, ht2]
  · exact breaker_succ_run cfg u cfg.successThreshold
      ⟨.halfOpen, 0, 0, if f then t2 else t, t2⟩ hs rfl (by simp; omega) (by simp)

/-- C6, witness: thresholds 2 and 2, timeout 30; two failures at time 0
open the breaker, a call at time 10 is rejected, the probe at time 30
runs and half-opens it, and two successes at time 40 close it with the
counters at zero. -/
theorem breaker_lifecycle_scenario_witness :
    1 ≤ (2 : Nat) ∧ (0 : Nat) ≤ 10 ∧ (10 : Nat) < 0 + 30 ∧ (0 : Nat) + 30 ≤ 30 ∧
    (Breaker.executeRun ⟨2, 2, 30⟩ Breaker.initialCB (List.replicate 2 (0, true)) =
      ({ state := .opened, failures := 2, successes := 0,
         lastFailure := 0, lastStateChange := 0 }, 2) ∧
    Breaker.Execute ⟨2, 2, 30⟩ ⟨.opened, 2, 0, 0, 0⟩ 10 false =
      (.rejectedOpen, false, ⟨.opened, 2, 0, 0, 0⟩) ∧
    Breaker.Execute ⟨2, 2, 30⟩ ⟨.opened, 2, 0, 0, 0⟩ 30 true =
      (.ran true, false, ⟨.halfOpen, 0, 0, if true then 30 else 0, 30⟩) ∧
    Breaker.executeRun ⟨2, 2, 30⟩ ⟨.halfOpen, 0, 0, if true then 30 else 0, 30⟩
        (List.replicate 2 (40, false)) =
      ({ state := .closed, failures := 0, successes := 0,
         lastFailure := if true then 30 else 0, lastStateChange := 40 }, 2)) := by
  refine ⟨by decide, by decide, by decide, by decide, ?_⟩
  have h := breaker_lifecycle_scenario ⟨2, 2, 30⟩ 0 10 30 40 true false
    (by decide) (by decide) (by decide) (by decide) (by decide)
  exact h

namespace RetryLib

/-- Retry configuration (retry.go lines 14-22). Delays are modelled as
rationals, faithfully carrying the float arithmetic of calculateDelay at
the scales the program uses; errors are identified by numeric codes. -/
structure RetryConfig where
  maxAttempts : Nat
  initialDelay : ℚ
  maxDelay : ℚ
  backoffFactor : ℚ
  jitter : Bool
deriving DecidableEq, Repr

/-- isRetryableError (retry.go lines 134-146): an empty allow-list makes
every error retryable; otherwise the error must match a listed one
(errors.Is modelled as equality of error codes). -/
def isRetryableError (e : Nat) (retryableErrors : List Nat) : Bool :=
  retryableErrors.isEmpty || retryableErrors.contains e

/-- Loop body of Retry (retry.go lines 40-71), with an uncancelled
context so the two ctx.Done selects never fire and sleeps are
invisible. fn maps the 1-based attempt number to its outcome (none =
success, some e = error e). fuel is the number of attempts still
allowed, so the loop starts with fuel = maxAttempts; fuel running out
before any attempt (maxAttempts = 0) returns the nil lastErr of the Go
declaration. Returns the final error and the number of invocations of
fn. -/
def retryLoop (fn : Nat → Option Nat) (retryableErrors : List Nat) :
    Nat → Nat → Option Nat × Nat
  | _, 0 => (none, 0)
  | attempt, fuel + 1 =>
      match fn attempt with
      | none => (none, 1)
      | some e =>
          if ¬ isRetryableError e retryableErrors then (some e, 1)
          else
            match fuel with
            | 0 => (some e, 1)
            | m + 1 =>
                let r := retryLoop fn retryableErrors (attempt + 1) (m + 1)
                (r.1, r.2 + 1)

/-- Retry (retry.go lines 37-74) under an uncancelled context: run the
loop from attempt 1 with maxAttempts attempts available. -/
def Retry (cfg : RetryConfig) (retryableErrors : List Nat) (fn : Nat → Option Nat) :
    Option Nat × Nat :=
  retryLoop fn retryableErrors 1 cfg.maxAttempts

/-- calculateDelay (retry.go lines 118-131): exponential backoff from
initialDelay, an additive jitter of rnd * 10 percent of the computed
delay when enabled (rand.Float64 yields rnd with 0 ≤ rnd < 1), then a
cap at maxDelay. The cap is applied after the jitter, exactly as in the
source. -/
def calculateDelay (attempt : Nat) (cfg : RetryConfig) (rnd : ℚ) : ℚ :=
  let delay := cfg.initialDelay * cfg.backoffFactor ^ (attempt - 1)
  let delay2 := if cfg.jitter then delay + rnd * (1/10) * delay else delay
  if cfg.maxDelay < delay2 then cfg.maxDelay else delay2

/-- Helper: an operation that fails retryably on every attempt before
attempt + fuel - 1 and succeeds there makes the loop return nil after
exactly fuel invocations. -/
theorem retryLoop_eventual_success (fn : Nat → Option Nat) (re : List Nat) :
    ∀ (fuel attempt : Nat), 1 ≤ fuel →
      (∀ k, attempt ≤ k → k < attempt + fuel - 1 →
        ∃ e, fn k = some e ∧ isRetryableError e re = true) →
      fn (attempt + fuel - 1) = none →
      retryLoop fn re attempt fuel = (none, fuel) := by
  intro fuel
  induction fuel with
  | zero => intro attempt h; omega
  | succ m ih =>
      intro attempt _ hfail hlast
      by_cases hm : m = 0
      · subst hm
        have hfn : fn attempt = none := by
          have : attempt + 1 - 1 = attempt := by omega
          rw [this] at hlast
          exact hlast
        simp [retryLoop, hfn]
      · obtain ⟨e, hfe, hre⟩ := hfail attempt (le_refl attempt) (by omega)
        obtain ⟨m', rfl⟩ : ∃ m', m = m' + 1 := ⟨m - 1, by omega⟩
        have hrec := ih (attempt + 1) (by omega)
          (fun k hk1 hk2 => hfail k (by omega) (by omega))
          (by have : attempt + 1 + (m' + 1) - 1 = attempt + (m' + 1 + 1) - 1 := by omega
              rw [this]; exact hlast)
        simp [retryLoop, hfe, hre, hrec]

/-- Helper: an operation that fails retryably on every attempt up to
attempt + fuel - 1 makes the loop return the last attempt's error after
exactly fuel invocations. -/
theorem retryLoop_all_fail (fn : Nat → Option Nat) (re : List Nat) :
    ∀ (fuel attempt : Nat), 1 ≤ fuel →
      (∀ k, attempt ≤ k → k ≤ attempt + fuel - 1 →
        ∃ e, fn k = some e ∧ isRetryableError e re = true) →
      retryLoop fn re attempt fuel = (fn (attempt + fuel - 1), fuel) := by
  intro fuel
  induction fuel with
  | zero => intro attempt h; omega
  | succ m ih =>
      intro attempt _ hfail
      obtain ⟨e, hfe, hre⟩ := hfail attempt (le_refl attempt) (by omega)
      by_cases hm : m = 0
      · subst hm
        have : attempt + 1 - 1 = attempt := by omega
        rw [this]
        simp [retryLoop, hfe, hre]
      · obtain ⟨m', rfl⟩ : ∃ m', m = m' + 1 := ⟨m - 1, by omega⟩
        have hrec := ih (attempt + 1) (by omega)
          (fun k hk1 hk2 => hfail k (by omega) (by omega))
        have harith : attempt + 1 + (m' + 1) - 1 = attempt + (m' + 1 + 1) - 1 := by omega
        rw [harith] at hrec
        simp [retryLoop, hfe, hre, hrec]

end RetryLib

/-- Helper: the cap in calculateDelay is a minimum. -/
theorem retry_cap_eq_min (a m : ℚ) : (if m < a then m else a) = min a m := by
  rcases lt_or_ge m a with h | h
  · rw [if_pos h, min_eq_right (le_of_lt h)]
  · rw [if_neg (not_lt.mpr h), min_eq_left h]

/-- Helper: delay monotonicity step. With a non-negative initial delay,
jitter draws in the interval from 0 inclusive to 1 exclusive, and
either a backoff factor of at least 11/10 or jitter disabled with a
factor of at least 1, consecutive computed delays never decrease. -/
theorem calculateDelay_mono (cfg : RetryLib.RetryConfig) (attempt : Nat) (r r' : ℚ)
    (ha : 1 ≤ attempt) (hD : 0 ≤ cfg.initialDelay) (hr0 : 0 ≤ r) (hr1 : r < 1)
    (hr'0 : 0 ≤ r')
    (hb : 11/10 ≤ cfg.backoffFactor ∨ (cfg.jitter = false ∧ 1 ≤ cfg.backoffFactor)) :
    RetryLib.calculateDelay attempt cfg r ≤ RetryLib.calculateDelay (attempt + 1) cfg r' := by
  have hb0 : (0 : ℚ) ≤ cfg.backoffFactor := by
    rcases hb with h | ⟨_, h⟩ <;> linarith
  have hb1 : (1 : ℚ) ≤ cfg.backoffFactor := by
    rcases hb with h | ⟨_, h⟩ <;> linarith
  have hpow : (0 : ℚ) ≤ cfg.backoffFactor ^ (attempt - 1) := pow_nonneg hb0 _
  have hx : (0 : ℚ) ≤ cfg.initialDelay * cfg.backoffFactor ^ (attempt - 1) :=
    mul_nonneg hD hpow
  have hsucc : cfg.backoffFactor ^ (attempt + 1 - 1) =
      cfg.backoffFactor ^ (attempt - 1) * cfg.backoffFactor := by
    have h1 : attempt + 1 - 1 = (attempt - 1) + 1 := by omega
    rw [h1, pow_succ]
  unfold RetryLib.calculateDelay
  rw [retry_cap_eq_min, retry_cap_eq_min]
  apply min_le_min _ (le_refl cfg.maxDelay)
  set x := cfg.initialDelay * cfg.backoffFactor ^ (attempt - 1) with hxdef
  have hnext : cfg.initialDelay * cfg.backoffFactor ^ (attempt + 1 - 1) =
      x * cfg.backoffFactor := by
    rw [hsucc, hxdef]; ring
  rw [hnext]
  by_cases hj : cfg.jitter = true
  · rw [if_pos hj, if_pos hj]
    have hb11 : 11/10 ≤ cfg.backoffFactor := by
      rcases hb with h | ⟨hcontra, _⟩
      · exact h
      · rw [hcontra] at hj; exact absurd hj (by simp)
    have step1 : x + r * (1/10) * x ≤ x * (11/10) := by nlinarith
    have step2 : x * (11/10) ≤ x * cfg.backoffFactor :=
      mul_le_mul_of_nonneg_left hb11 hx
    have step3 : x * cfg.backoffFactor ≤
        x * cfg.backoffFactor + r' * (1/10) * (x * cfg.backoffFactor) := by
      nlinarith [mul_nonneg hx hb0]
    linarith
  · rw [if_neg hj, if_neg hj]
    calc x = x * 1 := by ring
      _ ≤ x * cfg.backoffFactor := mul_le_mul_of_nonneg_left hb1 hx

/-- C7, counterexample. Claim: for every retry configuration the
computed inter-attempt delays are non-decreasing up to maxDelay. With
BackoffFactor 1/2 (a legal configuration value), Jitter off, initial
delay 4 and maxDelay 100, the delay before the second retry is 2,
strictly below the first delay of 4: delays decrease. -/
theorem calculateDelay_decreasing_counterexample :
    RetryLib.calculateDelay 1 ⟨3, 4, 100, 1/2, false⟩ 0 = 4 ∧
    RetryLib.calculateDelay 2 ⟨3, 4, 100, 1/2, false⟩ 0 = 2 ∧
    RetryLib.calculateDelay 2 ⟨3, 4, 100, 1/2, false⟩ 0 <
      RetryLib.calculateDelay 1 ⟨3, 4, 100, 1/2, false⟩ 0 := by
  refine ⟨?_, ?_, ?_⟩ <;> norm_num [RetryLib.calculateDelay]

/-- C7, amended. Under an uncancelled context and any configuration
with MaxAttempts = n at least 1: (a) an operation that fails with a
retryable error on each of the first n-1 attempts and succeeds on the
n-th makes Retry return nil after exactly n invocations; (b) an
operation that fails with a retryable error on every attempt makes
Retry return the n-th attempt's error after exactly n invocations;
(c) the computed inter-attempt delays are non-decreasing up to
maxDelay provided the backoff factor is at least 11/10, or jitter is
disabled and the factor is at least 1 — not for every configuration,
since a factor below 1 yields strictly decreasing delays. -/
theorem retry_invocation_count_and_delays :
    (∀ (cfg : RetryLib.RetryConfig) (re : List Nat) (fn : Nat → Option Nat),
      1 ≤ cfg.maxAttempts →
      (∀ k, 1 ≤ k → k < cfg.maxAttempts →
        ∃ e, fn k = some e ∧ RetryLib.isRetryableError e re = true) →
      fn cfg.maxAttempts = none →
      RetryLib.Retry cfg re fn = (none, cfg.maxAttempts)) ∧
    (∀ (cfg : RetryLib.RetryConfig) (re : List Nat) (fn : Nat → Option Nat),
      1 ≤ cfg.maxAttempts →
      (∀ k, 1 ≤ k → k ≤ cfg.maxAttempts →
        ∃ e, fn k = some e ∧ RetryLib.isRetryableError e re = true) →
      RetryLib.Retry cfg re fn = (fn cfg.maxAttempts, cfg.maxAttempts)) ∧
    (∀ (cfg : RetryLib.RetryConfig) (attempt : Nat) (r r' : ℚ),
      1 ≤ attempt → 0 ≤ cfg.initialDelay → 0 ≤ r → r < 1 → 0 ≤ r' →
      (11/10 ≤ cfg.backoffFactor ∨ (cfg.jitter = false ∧ 1 ≤ cfg.backoffFactor)) →
      RetryLib.calculateDelay attempt cfg r ≤ RetryLib.calculateDelay (attempt + 1) cfg r') := by
  refine ⟨?_, ?_, ?_⟩
  · intro cfg re fn hn hfail hlast
    have h := RetryLib.retryLoop_eventual_success fn re cfg.maxAttempts 1 hn
      (fun k hk1 hk2 => hfail k hk1 (by omega))
      (by have : 1 + cfg.maxAttempts - 1 = cfg.maxAttempts := by omega
          rw [this]; exact hlast)
    exact h
  · intro cfg re fn hn hfail
    have h := RetryLib.retryLoop_all_fail fn re cfg.maxAttempts 1 hn
      (fun k hk1 hk2 => hfail k hk1 (by omega))
    have harith : 1 + cfg.maxAttempts - 1 = cfg.maxAttempts := by omega
    rw [harith] at h
    exact h
  · intro cfg attempt r r' ha hD hr0 hr1 hr'0 hb
    exact calculateDelay_mono cfg attempt r r' ha hD hr0 hr1 hr'0 hb

/-- C7, witness: maxAttempts 2. An operation failing once with error 7
then succeeding returns nil after 2 invocations; an operation always
failing with error 9 returns error 9 after 2 invocations; with backoff
factor 2 and jitter draws 1/2 then 0, the second delay is no smaller
than the first. -/
theorem retry_invocation_count_and_delays_witness :
    RetryLib.Retry ⟨2, 1, 10, 2, true⟩ []
      (fun k => if k = 1 then some 7 else none) = (none, 2) ∧
    RetryLib.Retry ⟨2, 1, 10, 2, true⟩ [] (fun _ => some 9) = (some 9, 2) ∧
    RetryLib.calculateDelay 1 ⟨2, 1, 10, 2, true⟩ (1/2) ≤
      RetryLib.calculateDelay 2 ⟨2, 1, 10, 2, true⟩ 0 := by
  obtain ⟨h1, h2, h3⟩ := retry_invocation_count_and_delays
  refine ⟨?_, ?_, ?_⟩
  · have := h1 ⟨2, 1, 10, 2, true⟩ [] (fun k => if k = 1 then some 7 else none)
      (by decide)
      (by intro k hk1 hk2
          have hk2a : k < 2 := hk2
          have hk : k = 1 := by omega
          subst hk
          exact ⟨7, rfl, rfl⟩)
      rfl
    exact this
  · have := h2 ⟨2, 1, 10, 2, true⟩ [] (fun _ => some 9)
      (by decide)
      (by intro k hk1 hk2; exact ⟨9, rfl, rfl⟩)
    exact this
  · exact h3 ⟨2, 1, 10, 2, true⟩ 1 (1/2) 0 (by decide) (by norm_num) (by norm_num)
      (by norm_num) (by norm_num) (by left; norm_num)

namespace Pool

/-- Connection pool state (connection_pool.go lines 22-36). Connections
are identified by numbers; the active slice (field name connections in
the source) holds Option values because Go's Connection interface slice
can receive a nil after a closed waiter channel delivers its zero
value. idle only ever receives real connections from Put. waiting is
the FIFO queue of registered waiter channel ids. -/
structure PoolState where
  maxOpen : Nat
  maxIdle : Nat
  connections : List (Option Nat)
  idle : List Nat
  waiting : List Nat
  closed : Bool
deriving DecidableEq, Repr

/-- Removal of the first occurrence of a connection from the active
slice, as the break-terminated loop in Put (lines 120-125) does. -/
def removeFirst : List (Option Nat) → Option Nat → List (Option Nat)
  | [], _ => []
  | x :: xs, c => if x = c then xs else x :: removeFirst xs c

/-- Result of a Get call (connection_pool.go lines 60-108): a
connection, the pool-closed error, a factory error, or registration as
waiter w with the caller blocking on that waiter's channel. -/
inductive GetResult where
  | conn (c : Nat)
  | errPoolClosed
  | errFactory
  | blocked (w : Nat)
deriving DecidableEq, Repr

/-- Slow path of Get after the idle check (lines 80-91): create through
the factory while below maxOpen, otherwise append a fresh waiter w to
the queue and block. factoryConn is the factory outcome when called. -/
def getSlow (p : PoolState) (factoryConn : Option Nat) (w : Nat) : GetResult × PoolState :=
  if p.connections.length < p.maxOpen then
    match factoryConn with
    | some c => (.conn c, { p with connections := p.connections ++ [some c] })
    | none => (.errFactory, p)
  else (.blocked w, { p with waiting := p.waiting ++ [w] })

/-- Get (connection_pool.go lines 60-108), up to the point of blocking:
a closed pool errors; otherwise the last idle connection is popped
once and, if valid, moved to the active slice and returned, if invalid,
closed and the slow path is taken; with no idle connection the slow
path is taken directly. valid is each connection's IsValid answer. -/
def get (p : PoolState) (valid : Nat → Bool) (factoryConn : Option Nat) (w : Nat) :
    GetResult × PoolState :=
  if p.closed then (.errPoolClosed, p)
  else
    match p.idle.getLast? with
    | some c =>
        let p1 := { p with idle := p.idle.dropLast }
        if valid c then (.conn c, { p1 with connections := p1.connections ++ [some c] })
        else getSlow p1 factoryConn w
    | none => getSlow p factoryConn w

/-- What a blocked Get does when its waiter channel yields a value
(lines 94-97): append the received value to the active slice and return
it with a nil error. received is none when the channel was closed by
Close, in which case the receive yields the interface zero value nil —
and Get still returns it with a nil error. The pair is (returned
connection, returned error). -/
def waiterResume (p : PoolState) (received : Option Nat) :
    (Option Nat × Option Unit) × PoolState :=
  ((received, none), { p with connections := p.connections ++ [received] })

/-- Observable effects of one Put call: whether conn.Close was called,
whether the connection was appended to idle, and which waiter (if any)
was handed the connection through its channel. -/
structure PutEffect where
  closedConn : Bool
  idled : Bool
  handed : Option Nat
deriving DecidableEq, Repr

/-- Put (connection_pool.go lines 111-143): on a closed pool, close the
connection; otherwise remove it from the active slice, close it if
invalid, then idle it if there is room else close it, and then — in
addition, not instead — if any waiter is queued, pop the oldest and
send this same connection to its channel. -/
def put (p : PoolState) (conn : Nat) (valid : Nat → Bool) : PoolState × PutEffect :=
  if p.closed then (p, ⟨true, false, none⟩)
  else
    let p1 := { p with connections := removeFirst p.connections (some conn) }
    if ¬ valid conn then (p1, ⟨true, false, none⟩)
    else
      let idleRoom := p1.idle.length < p1.maxIdle
      let p2 := if idleRoom then { p1 with idle := p1.idle ++ [conn] } else p1
      match p2.waiting with
      | [] => (p2, ⟨¬ idleRoom, idleRoom, none⟩)
      | w :: rest => ({ p2 with waiting := rest }, ⟨¬ idleRoom, idleRoom, some w⟩)

/-- Observable effects of Close: the connections given to conn.Close
from the active and idle slices, and the waiters whose channels are
closed (each of their blocked Gets then receives the zero value). -/
structure CloseEffect where
  closedActive : List (Option Nat)
  closedIdle : List Nat
  waitersClosed : List Nat
deriving DecidableEq, Repr

/-- Close (connection_pool.go lines 146-172): idempotent; marks the
pool closed, closes every active and idle connection, clears all three
slices and closes every queued waiter channel. -/
def close (p : PoolState) : PoolState × CloseEffect :=
  if p.closed then (p, ⟨[], [], []⟩)
  else ({ p with closed := true, connections := [], idle := [], waiting := [] },
        ⟨p.connections, p.idle, p.waiting⟩)

end Pool

/-- C3. The claim is the intended invariant and the code breaks it: Put
(lines 132-142) idles the released connection and then ALSO hands the
same connection to the oldest waiter, because the waiter hand-off is
not an else-branch of idling. Reachable scenario with maxOpen = 1,
maxIdle = 1: caller A creates connection 0; caller B blocks as waiter
7; A releases 0, which is both appended to idle and sent to B; B
resumes and counts it active. The final reachable state holds
connection 0 in the active slice and in the idle slice at once, so
active + idle = 2 exceeds maxOpen = 1 and the same connection is
checked out twice. -/
theorem pool_put_double_count_bug :
    Pool.get ⟨1, 1, [], [], [], false⟩ (fun _ => true) (some 0) 7 =
      (.conn 0, ⟨1, 1, [some 0], [], [], false⟩) ∧
    Pool.get ⟨1, 1, [some 0], [], [], false⟩ (fun _ => true) none 7 =
      (.blocked 7, ⟨1, 1, [some 0], [], [7], false⟩) ∧
    Pool.put ⟨1, 1, [some 0], [], [7], false⟩ 0 (fun _ => true) =
      (⟨1, 1, [], [0], [], false⟩, ⟨false, true, some 7⟩) ∧
    Pool.waiterResume ⟨1, 1, [], [0], [], false⟩ (some 0) =
      ((some 0, none), ⟨1, 1, [some 0], [0], [], false⟩) ∧
    (Pool.PoolState.mk 1 1 [some 0] [0] [] false).connections.length +
      (Pool.PoolState.mk 1 1 [some 0] [0] [] false).idle.length >
      (Pool.PoolState.mk 1 1 [some 0] [0] [] false).maxOpen := by
  refine ⟨?_, ?_, ?_, ?_, ?_⟩ <;> decide

/-- C9. The claim is the intended contract and the code breaks its
waiter half: Close does close every active and idle connection, but it
fails pending waiters by calling close on their channels (line 167), so
a blocked Get receives the channel's zero value and returns it as a
nil connection with a nil error (lines 94-97) instead of an error. In
the reachable state with active connection 0 and blocked waiter 7,
Close closes connection 0, and waiter 7's Get returns (nil, nil). -/
theorem pool_close_waiter_nil_bug :
    Pool.close ⟨1, 1, [some 0], [], [7], false⟩ =
      (⟨1, 1, [], [], [], true⟩, ⟨[some 0], [], [7]⟩) ∧
    Pool.waiterResume ⟨1, 1, [], [], [], true⟩ none =
      ((none, none), ⟨1, 1, [none], [], [], true⟩) ∧
    ((Pool.waiterResume ⟨1, 1, [], [], [], true⟩ none).1.1 = none ∧
     (Pool.waiterResume ⟨1, 1, [], [], [], true⟩ none).1.2 = none) := by
  refine ⟨?_, ?_, ?_, ?_⟩ <;> decide
